import Mathlib

/-!
Shallow embedding of the `chatgpt-geo-explorer` Cloudflare Worker
(`src/index.ts`).  The file holds two revisions of the worker: an earlier
single-dataset compute proxy (routes `/sensor-data` and `/`) and the current
multi-dataset handler (routes `/sensor` and `/`).  Both are embedded below.

Modelling conventions:
* JSON values produced by `request.json()` are modelled by the inductive
  `Json`.  JSON numbers are rationals: `JSON.parse` can never produce `NaN`
  or `Infinity`, so the `isNaN` checks in the source are vacuous on reachable
  inputs and finiteness is implicit.
* JavaScript `undefined` is modelled by `Option.none`; `a?.b` optional
  chaining becomes `Option.bind` composed with field lookup, and `a || b`
  on possibly-undefined values becomes `jsOr` below (first *truthy* value).
* The two network effects — credential extraction + token exchange, and each
  per-dataset Earth Engine call — are oracles (`AuthOutcome`,
  `UpstreamOutcome`) supplied to the handler.  A thrown exception inside the
  per-dataset `try` is an `UpstreamOutcome.thrown`; a throw during
  authentication reaches the top-level `catch` and is mapped to status 500.
-/

/-- JSON values, as produced by `JSON.parse` / `request.json()`. -/
inductive Json where
  | null
  | bool (b : Bool)
  | num (q : ℚ)
  | str (s : String)
  | arr (elems : List Json)
  | obj (fields : List (String × Json))
  deriving Repr

/-- First-match association lookup, the access discipline of a JS object
produced by `JSON.parse` (whose keys are unique). -/
def lookupKey {α : Type} : List (String × α) → String → Option α
  | [], _ => none
  | (k, v) :: rest, key => if k == key then some v else lookupKey rest key

/-- `x[key]` on a JSON value: a field of an object, `undefined` otherwise. -/
def Json.getField : Json → String → Option Json
  | Json.obj fields, key => lookupKey fields key
  | _, _ => none

/-- JavaScript truthiness of a parsed JSON value (`NaN` cannot occur). -/
def Json.truthy : Json → Bool
  | Json.null => false
  | Json.bool b => b
  | Json.num q => q ≠ 0
  | Json.str s => s ≠ ""
  | Json.arr _ => true
  | Json.obj _ => true

/-- Truthiness of a possibly-`undefined` value. -/
def jsTruthy : Option Json → Bool
  | none => false
  | some v => v.truthy

/-- JavaScript `a || b` over possibly-`undefined` values: `a` when truthy,
otherwise `b` (so the final operand is returned even when falsy). -/
def jsOr (a b : Option Json) : Option Json :=
  if jsTruthy a then a else b

/-- `p` occurs at the head of `l` (char-list core of JS `String.includes`). -/
def listIsPre : List Char → List Char → Bool
  | [], _ => true
  | _ :: _, [] => false
  | a :: ps, b :: ls => a == b && listIsPre ps ls

/-- `sub` occurs somewhere in `l`. -/
def charsHasSub (l sub : List Char) : Bool :=
  match l with
  | [] => sub.isEmpty
  | _ :: rest => listIsPre sub l || charsHasSub rest sub

/-- Model of JS `s.includes(sub)`. -/
def strIncludes (s sub : String) : Bool :=
  charsHasSub s.data sub.data

/-- Model of JS `s.split(sep)` for a single-character separator, on the
underlying character list.  Never returns `[]` (like JS `split`). -/
def splitCharList (sep : Char) : List Char → List (List Char)
  | [] => [[]]
  | c :: cs =>
    let rest := splitCharList sep cs
    if c = sep then [] :: rest
    else
      match rest with
      | r :: rs => (c :: r) :: rs
      | [] => [[c]]

/-- Model of JS `s.split(sep)`. -/
def splitChar (sep : Char) (s : String) : List String :=
  (splitCharList sep s.data).map String.mk

/-- Model of JS `s.split('/').pop()` (the split list is never empty). -/
def splitPop (s : String) : String :=
  (splitChar '/' s).getLastD ""

/-- A dataset registry entry (`src/index.ts` lines 260-314).  The source's
Sentinel-1 entry also carries a `filters` array, but no code in the worker
ever reads it, so it is not modelled. -/
structure Dataset where
  id : String
  name : String
  bands : List String
  type : String
  defaultScale : ℚ
  deriving Repr, DecidableEq

def modisDS : Dataset :=
  { id := "MODIS/006/MOD13A1/2023_01_01"
    name := "MODIS Vegetation Indices"
    bands := ["NDVI", "EVI"]
    type := "image"
    defaultScale := 463.3 }

def sentinel2DS : Dataset :=
  { id := "COPERNICUS/S2_SR_HARMONIZED"
    name := "Sentinel-2 Surface Reflectance"
    bands := ["B4", "B8"]
    type := "collection"
    defaultScale := 10 }

def sentinel1DS : Dataset :=
  { id := "COPERNICUS/S1_GRD"
    name := "Sentinel-1 SAR"
    bands := ["HH", "HV"]
    type := "collection"
    defaultScale := 25 }

def srtmDS : Dataset :=
  { id := "USGS/SRTMGL1_003"
    name := "SRTM Digital Elevation"
    bands := ["elevation"]
    type := "image"
    defaultScale := 30 }

def mapbiomasDS : Dataset :=
  { id := "projects/mapbiomas-raisg/public/collection3/mapbiomas_raisg_panamazonia_collection3_integration_v2"
    name := "MapBiomas Pan-Amazonia"
    bands := ["classification_2020"]
    type := "image"
    defaultScale := 30 }

def gediDS : Dataset :=
  { id := "LARSE/GEDI/GEDI02_A_002_MONTHLY"
    name := "GEDI Canopy Height"
    bands := ["rh98"]
    type := "collection"
    defaultScale := 25 }

def forestDS : Dataset :=
  { id := "NASA/JPL/global_forest_canopy_height_2005"
    name := "Global Forest Canopy Height"
    bands := ["1"]
    type := "image"
    defaultScale := 927.7 }

/-- The dataset registry, in source order. -/
def datasets : List Dataset :=
  [modisDS, sentinel2DS, sentinel1DS, srtmDS, mapbiomasDS, gediDS, forestDS]

/-- `data.result?.properties?.[key]` (optional chaining). -/
def probeProp (result : Option Json) (key : String) : Option Json :=
  (result.bind (fun r => r.getField "properties")).bind
    (fun props => props.getField key)

/-- The `rawId` chain of `src/index.ts` lines 422-425:
`data.result?.id || ...properties?.['system:index'] || ...['GRANULE_ID'] ||
...['PRODUCT_ID']`.  `result` is `data.result`, which is `undefined` when the
upstream body has no `result` field. -/
def extractRawId (result : Option Json) : Option Json :=
  jsOr (jsOr (jsOr (result.bind (fun r => r.getField "id"))
                   (probeProp result "system:index"))
             (probeProp result "GRANULE_ID"))
       (probeProp result "PRODUCT_ID")

/-- Scene-ID extraction for a dataset (`src/index.ts` lines 418-437).  The
guard `if (rawId && typeof rawId === 'string')` accepts exactly the non-empty
strings (a string is truthy iff non-empty). -/
def extractSceneId (d : Dataset) (result : Option Json) : Option String :=
  if strIncludes d.name "Sentinel" then
    match extractRawId result with
    | some (Json.str s) =>
      if s ≠ "" then
        if strIncludes d.name "Sentinel-2" then some (splitPop s)
        else if strIncludes d.name "Sentinel-1" then some (splitPop s)
        else none
      else none
    | _ => none
  else none

/-- One dataset's slot in the `results` object (`responseData` shape).
`data`, `sceneId`, `error` are optional because `JSON.stringify` drops absent
fields. -/
structure DatasetResult where
  status : String
  id : String
  type : String
  bands : List String
  scale : ℚ
  defaultScale : ℚ
  data : Option Json
  sceneId : Option String
  error : Option String
  deriving Repr

/-- Outcome of the Earth Engine call for one dataset: `ok` carries
`data.result` (`none` when the response body has no `result` field);
`httpError` is a non-2xx response with its body text; `thrown` is an
exception raised inside the per-dataset `try` (its extracted message). -/
inductive UpstreamOutcome where
  | ok (result : Option Json)
  | httpError (text : String)
  | thrown (msg : String)

/-- Outcome of `extractCredentials` + `authenticateViaPrivateKey`: either a
usable bearer token, or a thrown error (reaching the top-level `catch`). -/
inductive AuthOutcome where
  | ok
  | failed (msg : String)

/-- `const effectiveScale = customScale || dataset.defaultScale` — JS `||`
truthiness on numbers (`0` is falsy; `NaN` cannot reach here). -/
def effectiveScale (customScale : Option ℚ) (d : Dataset) : ℚ :=
  match customScale with
  | some q => if q ≠ 0 then q else d.defaultScale
  | none => d.defaultScale

/-- The per-dataset loop body (`src/index.ts` lines 319-478): build the slot
from the upstream outcome.  `sceneId` is attached only when truthy
(`if (sceneId)`), i.e. when the extracted string is non-empty. -/
def processDataset (customScale : Option ℚ) (d : Dataset)
    (out : UpstreamOutcome) : DatasetResult :=
  match out with
  | UpstreamOutcome.ok result =>
    { status := "success"
      id := d.id
      type := d.type
      bands := d.bands
      scale := effectiveScale customScale d
      defaultScale := d.defaultScale
      data := result
      sceneId :=
        match extractSceneId d result with
        | some s => if s ≠ "" then some s else none
        | none => none
      error := none }
  | UpstreamOutcome.httpError text =>
    { status := "error"
      id := d.id
      type := d.type
      bands := d.bands
      scale := effectiveScale customScale d
      defaultScale := d.defaultScale
      data := none
      sceneId := none
      error := some text }
  | UpstreamOutcome.thrown msg =>
    { status := "error"
      id := d.id
      type := d.type
      bands := d.bands
      scale := effectiveScale customScale d
      defaultScale := d.defaultScale
      data := none
      sceneId := none
      error := some msg }

/-- The full `for (const dataset of datasets)` loop: the insertion-ordered
`results` object, keyed by dataset name. -/
def runDatasets (customScale : Option ℚ)
    (upstream : Dataset → UpstreamOutcome) : List (String × DatasetResult) :=
  datasets.map (fun d => (d.name, processDataset customScale d (upstream d)))

/-- An incoming request, with `body` the outcome of `request.json()`
(`none` = the body failed to parse as JSON). -/
structure WorkerRequest where
  method : String
  path : String
  body : Option Json

/-- The worker's response, to the granularity the claims need. -/
inductive WorkerResponse where
  | err (status : Nat) (message : String)
  | singleOk (result : Json)
  | sensorOk (lat lon : ℚ) (requested : Option ℚ) (note : String)
             (results : List (String × DatasetResult))

def WorkerResponse.statusCode : WorkerResponse → Nat
  | WorkerResponse.err s _ => s
  | WorkerResponse.singleOk _ => 200
  | WorkerResponse.sensorOk _ _ _ _ _ => 200

/-- The `datasets` map of a 200 multi-dataset response. -/
def WorkerResponse.datasetsMap : WorkerResponse → List (String × DatasetResult)
  | WorkerResponse.sensorOk _ _ _ _ rs => rs
  | _ => []

/-- The validation gauntlet of the multi-dataset revision
(`src/index.ts` lines 219-252): method, path, JSON body, destructuring
(`const {lat, lon, scale} = requestBody` throws on `null`, reaching the
top-level `catch` → 500), `typeof`/`isNaN` checks on `lat`/`lon` (the
`isNaN` check can never fire on a parsed JSON number), and the `scale`
check. -/
def validateMulti (req : WorkerRequest) :
    Except (Nat × String) (ℚ × ℚ × Option ℚ) :=
  if req.method ≠ "POST" then Except.error (405, "Method not allowed")
  else if req.path ≠ "/sensor" ∧ req.path ≠ "/" then
    Except.error (404, "Not found")
  else
    match req.body with
    | none => Except.error (400, "Invalid JSON body")
    | some Json.null =>
      Except.error (500, "Cannot destructure properties of null")
    | some body =>
      match body.getField "lat", body.getField "lon" with
      | some (Json.num la), some (Json.num lo) =>
        match body.getField "scale" with
        | none => Except.ok (la, lo, none)
        | some (Json.num q) =>
          if q ≤ 0 then Except.error (400, "Scale must be a positive number")
          else Except.ok (la, lo, some q)
        | some _ => Except.error (400, "Scale must be a positive number")
      | _, _ => Except.error (400, "Missing or invalid lat/lon parameters")

/-- The `scale.note` field
(`customScale ? 'Custom scale applied to all datasets' : ...`). -/
def scaleNote (customScale : Option ℚ) : String :=
  match customScale with
  | some q =>
    if q ≠ 0 then "Custom scale applied to all datasets"
    else "Using default scales per dataset"
  | none => "Using default scales per dataset"

/-- The multi-dataset handler (`src/index.ts` lines 214-497, current
revision): validate, authenticate, run the per-dataset loop, assemble. -/
def fetchMulti (req : WorkerRequest) (auth : AuthOutcome)
    (upstream : Dataset → UpstreamOutcome) : WorkerResponse :=
  match validateMulti req with
  | Except.error (s, m) => WorkerResponse.err s m
  | Except.ok (la, lo, cs) =>
    match auth with
    | AuthOutcome.failed msg => WorkerResponse.err 500 msg
    | AuthOutcome.ok =>
      WorkerResponse.sensorOk la lo cs (scaleNote cs) (runDatasets cs upstream)

/-- The validation gauntlet of the earlier single-dataset revision
(`src/index.ts` lines 46-70): identical except for the route
(`/sensor-data`) and the absence of a `scale` parameter. -/
def validateSingle (req : WorkerRequest) : Except (Nat × String) (ℚ × ℚ) :=
  if req.method ≠ "POST" then Except.error (405, "Method not allowed")
  else if req.path ≠ "/sensor-data" ∧ req.path ≠ "/" then
    Except.error (404, "Not found")
  else
    match req.body with
    | none => Except.error (400, "Invalid JSON body")
    | some Json.null =>
      Except.error (500, "Cannot destructure properties of null")
    | some body =>
      match body.getField "lat", body.getField "lon" with
      | some (Json.num la), some (Json.num lo) => Except.ok (la, lo)
      | _, _ => Except.error (400, "Missing or invalid lat/lon parameters")

/-- The single-dataset handler (`src/index.ts` lines 41-137, earlier
revision): one upstream compute call; non-2xx upstream → 502; a throw while
reading the upstream body reaches the top-level `catch` → 500. -/
def fetchSingle (req : WorkerRequest) (auth : AuthOutcome)
    (upstream : UpstreamOutcome) : WorkerResponse :=
  match validateSingle req with
  | Except.error (s, m) => WorkerResponse.err s m
  | Except.ok _ =>
    match auth with
    | AuthOutcome.failed msg => WorkerResponse.err 500 msg
    | AuthOutcome.ok =>
      match upstream with
      | UpstreamOutcome.ok (some result) => WorkerResponse.singleOk result
      | UpstreamOutcome.ok none => WorkerResponse.singleOk Json.null
      | UpstreamOutcome.httpError text =>
        WorkerResponse.err 502 ("EE compute failed: " ++ text)
      | UpstreamOutcome.thrown msg => WorkerResponse.err 500 msg

/-- The `extractCredentials` present in both revisions under `src`
(`src/index.ts` lines 30-38 and 203-211): `JSON.parse` the secret, throw on
parse failure, and return the parsed object otherwise (fields untouched). -/
def extractCredentials (parsedSecret : Option Json) : Except String Json :=
  match parsedSecret with
  | none => Except.error "Invalid JSON in SA_PRIVATE_KEY environment variable"
  | some j => Except.ok j

/-- The four probe locations of the rawId chain, in source priority order. -/
def probeList (result : Option Json) : List (Option Json) :=
  [result.bind (fun r => r.getField "id"),
   probeProp result "system:index",
   probeProp result "GRANULE_ID",
   probeProp result "PRODUCT_ID"]

/-- The first truthy value of a probe list, if any. -/
def firstTruthy : List (Option Json) → Option Json
  | [] => none
  | a :: rest => if jsTruthy a then a else firstTruthy rest

/-- Refinement counterpart for the scene-id claim, following the words of
spec section 4.5: probe the four locations in priority order for a string
value, take the first non-empty string hit (skipping non-string values), and
extract the substring after the final path separator.  To be compared with
the source-derived `extractSceneId`. -/
def firstNonEmptyString : List (Option Json) → Option String
  | [] => none
  | some (Json.str s) :: rest =>
    if s ≠ "" then some s else firstNonEmptyString rest
  | _ :: rest => firstNonEmptyString rest

/-- Scene-id extraction as the spec words it (see `firstNonEmptyString`). -/
def specSceneId (d : Dataset) (result : Option Json) : Option String :=
  if strIncludes d.name "Sentinel" then
    match firstNonEmptyString (probeList result) with
    | some s => some (splitPop s)
    | none => none
  else none

/-- A payload whose first truthy probe value is a number while a later probe
holds a non-empty string: the point where the spec wording and the source
diverge. -/
def mixedProbePayload : Option Json :=
  some (Json.obj
    [("id", Json.num 42),
     ("properties", Json.obj [("system:index", Json.str "prefix/SCENE")])])

/-- Modelled from the spec: the credential-extractor revision with a
raw-string fallback is not among the revisions under src (both revisions
there throw on JSON-parse failure).  Spec sections 4.1 and 6: the secret
either parses as service-account JSON with client_email, private_key and
project_id, or, on parse failure, the raw string is itself the private key
and the supplementary fields SA_CLIENT_EMAIL and EE_PROJECT must both be
present; a ConfigurationError results if neither path yields all three
fields.  `parsedJson` is the outcome of attempting JSON.parse on `raw`. -/
structure CredEnv where
  raw : String
  parsedJson : Option Json
  saClientEmail : Option String
  eeProject : Option String

/-- Outcome of credential extraction in the fallback-bearing revision. -/
inductive CredResult where
  | ok (clientEmail privateKey projectId : String)
  | configError (msg : String)

/-- A string-valued field of a JSON object, if present. -/
def getStrField (j : Json) (key : String) : Option String :=
  match j.getField key with
  | some (Json.str s) => some s
  | _ => none

/-- Modelled from the spec (see `CredEnv`): credential extraction with the
raw-string fallback path. -/
def extractCredentialsWithFallback (env : CredEnv) : CredResult :=
  match env.parsedJson with
  | some j =>
    match getStrField j "client_email", getStrField j "private_key",
          getStrField j "project_id" with
    | some ce, some pk, some pid => CredResult.ok ce pk pid
    | _, _, _ =>
      CredResult.configError "service account JSON is missing required fields"
  | none =>
    match env.saClientEmail, env.eeProject with
    | some ce, some pid => CredResult.ok ce env.raw pid
    | _, _ =>
      CredResult.configError
        "raw-key fallback requires SA_CLIENT_EMAIL and EE_PROJECT"

/-- Response of the image-visualization handler. -/
inductive ImageResponse where
  | err (status : Nat) (message : String)
  | ok (coordinates : ℚ × ℚ) (dataset : String) (imageUrl : String)
       (visualization : Json) (dimensions : ℚ × ℚ)

def ImageResponse.status : ImageResponse → Nat
  | ImageResponse.err s _ => s
  | ImageResponse.ok _ _ _ _ _ => 200

/-- Registry lookup by dataset name. -/
def lookupDatasetByName (name : String) : Option Dataset :=
  datasets.find? (fun d => d.name == name)

/-- Dataset-specific visualization parameters, modelled only to the level
the claims require (a JSON object derived from the dataset). -/
def visualizationFor (d : Dataset) : Json :=
  Json.obj [("bands", Json.arr (d.bands.map Json.str))]

/-- The generated Earth Engine thumbnail URL, modelled as an opaque string
derived from the dataset. -/
def imageUrlFor (d : Dataset) : String :=
  "Earth Engine thumbnail for " ++ d.name

/-- An optional positive numeric body parameter with a default: `some`
holds the effective value, `none` marks a validation failure. -/
def optionalPositiveNum (body : Json) (key : String) (deflt : ℚ) : Option ℚ :=
  match body.getField key with
  | none => some deflt
  | some (Json.num q) => if 0 < q then some q else none
  | some _ => none

/-- Modelled from the spec: the `/image` handler is not under src (the
revisions present route only `/sensor-data`, `/sensor` and `/`, answering
404 for `/image`).  Spec sections 2, 4.7 and 6: POST `/image` with body
`{lat, lon, dataset, width?, height?, year?, scale?}`; coordinates must be
finite numbers within their ranges and optional numeric parameters positive
(400 on violation), `dataset` must name a registry entry (400 otherwise),
and the 200 response carries
`{coordinates, dataset, imageUrl, visualization, dimensions}`, width and
height defaulting to 512.  The optional `year` is passed through without
validation the spec would mandate, so it is not modelled. -/
def validateImageCoords (body : Json) : Except (Nat × String) (ℚ × ℚ) :=
  match body.getField "lat", body.getField "lon" with
  | some (Json.num la), some (Json.num lo) =>
    if la < -90 ∨ 90 < la ∨ lo < -180 ∨ 180 < lo then
      Except.error (400, "Coordinates out of range")
    else Except.ok (la, lo)
  | _, _ => Except.error (400, "Missing or invalid lat/lon parameters")

def imageDatasetOf (body : Json) : Except (Nat × String) Dataset :=
  match body.getField "dataset" with
  | some (Json.str name) =>
    match lookupDatasetByName name with
    | some d => Except.ok d
    | none => Except.error (400, "Unknown dataset name")
  | _ => Except.error (400, "Missing or invalid dataset parameter")

def imageDims (body : Json) (d : Dataset) : Except (Nat × String) (ℚ × ℚ) :=
  match optionalPositiveNum body "width" 512,
        optionalPositiveNum body "height" 512,
        optionalPositiveNum body "scale" d.defaultScale with
  | some w, some h, some _ => Except.ok (w, h)
  | _, _, _ => Except.error (400, "Invalid parameters")

def imageRespond (body : Json) : ImageResponse :=
  match validateImageCoords body with
  | Except.error (s, m) => ImageResponse.err s m
  | Except.ok (la, lo) =>
    match imageDatasetOf body with
    | Except.error (s, m) => ImageResponse.err s m
    | Except.ok d =>
      match imageDims body d with
      | Except.error (s, m) => ImageResponse.err s m
      | Except.ok (w, h) =>
        ImageResponse.ok (la, lo) d.name (imageUrlFor d)
          (visualizationFor d) (w, h)

def fetchImage (req : WorkerRequest) : ImageResponse :=
  if req.method ≠ "POST" then ImageResponse.err 405 "Method not allowed"
  else if req.path ≠ "/image" then ImageResponse.err 404 "Not found"
  else
    match req.body with
    | none => ImageResponse.err 400 "Invalid JSON body"
    | some body => imageRespond body

/-- Concrete request with latitude 100, used for the range-validation
claim: the body is valid JSON with numeric lat and lon. -/
def lat100Req : WorkerRequest :=
  { method := "POST"
    path := "/sensor"
    body := some (Json.obj [("lat", Json.num 100), ("lon", Json.num 0)]) }

/-- Concrete valid request used by several witnesses. -/
def validSensorReq : WorkerRequest :=
  { method := "POST"
    path := "/sensor"
    body := some (Json.obj [("lat", Json.num 1), ("lon", Json.num 2)]) }

/-- Oracle under which every dataset call succeeds with an empty object. -/
def allOkOracle : Dataset → UpstreamOutcome :=
  fun _ => UpstreamOutcome.ok (some (Json.obj []))

/-- Oracle under which exactly the MODIS dataset call fails upstream. -/
def modisFailsOracle : Dataset → UpstreamOutcome :=
  fun d =>
    if d.name == "MODIS Vegetation Indices" then
      UpstreamOutcome.httpError "simulated upstream failure"
    else UpstreamOutcome.ok (some (Json.obj []))

/-- Concrete request whose scale parameter is the non-numeric string x. -/
def badScaleReq : WorkerRequest :=
  { method := "POST"
    path := "/sensor"
    body := some (Json.obj
      [("lat", Json.num 1), ("lon", Json.num 2), ("scale", Json.str "x")]) }

/-- Body of a concrete valid image request. -/
def goodImageBody : Json :=
  Json.obj
    [("lat", Json.num (-2.8)), ("lon", Json.num (-60.3)),
     ("dataset", Json.str "Sentinel-2 Surface Reflectance")]

/-- Concrete valid image request used by the image-endpoint claim. -/
def goodImageReq : WorkerRequest :=
  { method := "POST"
    path := "/image"
    body := some goodImageBody }

/-- Concrete image request naming an unregistered dataset. -/
def badDatasetImageReq : WorkerRequest :=
  { method := "POST"
    path := "/image"
    body := some (Json.obj
      [("lat", Json.num 0), ("lon", Json.num 0),
       ("dataset", Json.str "NoSuchDataset")]) }

/-! ## Helper lemmas -/

theorem splitCharList_no_sep (sep : Char) (l : List Char) (h : sep ∉ l) :
    splitCharList sep l = [l] := by
  induction l with
  | nil => rfl
  | cons c cs ih =>
    have hc : c ≠ sep := by rintro rfl; exact h (List.mem_cons_self _ _)
    have hcs : sep ∉ cs := fun hm => h (List.mem_cons_of_mem _ hm)
    simp [splitCharList, ih hcs, if_neg hc]

theorem splitPop_no_sep (s : String) (h : '/' ∉ s.data) : splitPop s = s := by
  unfold splitPop splitChar
  rw [splitCharList_no_sep _ _ h]
  cases s
  rfl

theorem processDataset_status (cs : Option ℚ) (d : Dataset)
    (out : UpstreamOutcome) :
    (processDataset cs d out).status = "success" ∨
    (processDataset cs d out).status = "error" := by
  cases out <;> simp [processDataset]

theorem processDataset_scale (cs : Option ℚ) (d : Dataset)
    (out : UpstreamOutcome) :
    (processDataset cs d out).scale = effectiveScale cs d := by
  cases out <;> rfl

theorem extractSceneId_sentinel (d : Dataset) (r : Option Json) (t : String)
    (h : extractSceneId d r = some t) :
    strIncludes d.name "Sentinel" = true := by
  cases hc : strIncludes d.name "Sentinel" with
  | true => rfl
  | false => rw [extractSceneId, hc] at h; cases h

theorem datasets_names_nodup : (datasets.map Dataset.name).Nodup := by
  decide

theorem lookupKey_map_eq {α : Type} (f : Dataset → α) (l : List Dataset)
    (d : Dataset) (hd : d ∈ l) (hnd : (l.map Dataset.name).Nodup) :
    lookupKey (l.map fun x => (x.name, f x)) d.name = some (f d) := by
  induction l with
  | nil => cases hd
  | cons x xs ih =>
    simp only [List.map_cons, List.nodup_cons, List.mem_map] at hnd
    rcases List.mem_cons.mp hd with rfl | hmem
    · simp [lookupKey]
    · have hne : x.name ≠ d.name :=
        fun he => hnd.1 ⟨d, hmem, he.symm⟩
      simp only [List.map_cons, lookupKey]
      rw [if_neg (by simpa using hne)]
      exact ih hmem hnd.2

theorem runDatasets_lookup (cs : Option ℚ) (o : Dataset → UpstreamOutcome)
    (d : Dataset) (hd : d ∈ datasets) :
    lookupKey (runDatasets cs o) d.name = some (processDataset cs d (o d)) :=
  lookupKey_map_eq _ _ _ hd datasets_names_nodup

theorem validateMulti_error_ne200 (req : WorkerRequest) (s : Nat) (m : String)
    (h : validateMulti req = Except.error (s, m)) : s ≠ 200 := by
  unfold validateMulti at h
  repeat' split at h
  all_goals
    first
      | (injection h with h1; injection h1 with ha hb; omega)
      | cases h

theorem fetchMulti_ok_form (req : WorkerRequest) (auth : AuthOutcome)
    (o : Dataset → UpstreamOutcome) (la lo : ℚ) (cs : Option ℚ)
    (hv : validateMulti req = Except.ok (la, lo, cs))
    (ha : auth = AuthOutcome.ok) :
    fetchMulti req auth o =
      WorkerResponse.sensorOk la lo cs (scaleNote cs) (runDatasets cs o) := by
  subst ha
  simp [fetchMulti, hv]

theorem fetchMulti_status200_inv (req : WorkerRequest) (auth : AuthOutcome)
    (o : Dataset → UpstreamOutcome)
    (h : (fetchMulti req auth o).statusCode = 200) :
    ∃ la lo cs, validateMulti req = Except.ok (la, lo, cs) ∧
      auth = AuthOutcome.ok := by
  cases hv : validateMulti req with
  | error e =>
    rcases e with ⟨s, m⟩
    rw [fetchMulti, hv] at h
    exact absurd h (validateMulti_error_ne200 req s m hv)
  | ok v =>
    rcases v with ⟨la, lo, cs⟩
    cases ha : auth with
    | failed msg =>
      rw [fetchMulti, hv, ha] at h
      cases h
    | ok => exact ⟨la, lo, cs, rfl, rfl⟩

theorem firstTruthy_some (l : List (Option Json)) (v : Json)
    (h : firstTruthy l = some v) : v.truthy = true := by
  induction l with
  | nil => cases h
  | cons a rest ih =>
    rw [firstTruthy] at h
    by_cases ht : jsTruthy a = true
    · rw [if_pos ht] at h
      subst h
      simpa [jsTruthy] using ht
    · rw [if_neg ht] at h
      exact ih h

theorem firstTruthy_none (l : List (Option Json))
    (h : firstTruthy l = none) : ∀ a ∈ l, jsTruthy a = false := by
  induction l with
  | nil => intro a ha; cases ha
  | cons a rest ih =>
    rw [firstTruthy] at h
    by_cases ht : jsTruthy a = true
    · rw [if_pos ht] at h
      rw [h] at ht
      simp [jsTruthy] at ht
    · rw [if_neg ht] at h
      intro b hb
      rcases List.mem_cons.mp hb with rfl | hmem
      · cases hbv : jsTruthy b
        · rfl
        · exact absurd hbv ht
      · exact ih h b hmem

theorem jsOr_truthy (a b : Option Json) (h : jsTruthy a = true) :
    jsOr a b = a := by
  unfold jsOr
  rw [h]
  rfl

theorem jsOr_falsy (a b : Option Json) (h : jsTruthy a = false) :
    jsOr a b = b := by
  unfold jsOr
  rw [h]
  rfl

theorem firstTruthy_cons_true (a : Option Json) (l : List (Option Json))
    (h : jsTruthy a = true) : firstTruthy (a :: l) = a := by
  rw [firstTruthy, if_pos h]

theorem firstTruthy_cons_false (a : Option Json) (l : List (Option Json))
    (h : jsTruthy a = false) : firstTruthy (a :: l) = firstTruthy l := by
  rw [firstTruthy]
  rw [if_neg (by simp [h])]

theorem extractRawId_eq (result : Option Json) :
    extractRawId result =
      jsOr (firstTruthy (probeList result)) (probeProp result "PRODUCT_ID") := by
  cases h1 : jsTruthy (result.bind fun r => r.getField "id") <;>
  cases h2 : jsTruthy (probeProp result "system:index") <;>
  cases h3 : jsTruthy (probeProp result "GRANULE_ID") <;>
  cases h4 : jsTruthy (probeProp result "PRODUCT_ID") <;>
  simp [extractRawId, probeList, firstTruthy, jsOr, h1, h2, h3, h4] <;>
  simp [jsTruthy]

theorem validateMulti_reduce (req : WorkerRequest) (body : Json) (la lo : ℚ)
    (hm : req.method = "POST") (hp : req.path = "/sensor" ∨ req.path = "/")
    (hb : req.body = some body)
    (hlat : body.getField "lat" = some (Json.num la))
    (hlon : body.getField "lon" = some (Json.num lo)) :
    validateMulti req =
      match body.getField "scale" with
      | none => Except.ok (la, lo, none)
      | some (Json.num q) =>
        if q ≤ 0 then Except.error (400, "Scale must be a positive number")
        else Except.ok (la, lo, some q)
      | some _ => Except.error (400, "Scale must be a positive number") := by
  unfold validateMulti
  rw [hb]
  rw [if_neg (by simp [hm])]
  rw [if_neg (by rcases hp with h | h <;> simp [h])]
  cases body with
  | obj fields =>
    simp only [Json.getField] at hlat hlon ⊢
    rw [hlat, hlon]
  | null => simp [Json.getField] at hlat
  | bool b => simp [Json.getField] at hlat
  | num q => simp [Json.getField] at hlat
  | str s => simp [Json.getField] at hlat
  | arr elems => simp [Json.getField] at hlat

/-- C1: the claim asserts that numeric `lat` outside [-90, 90] (for example
`lat = 100`) or non-finite coordinates yield HTTP 400.  The source validates
only `typeof` and `isNaN` (lines 237-243 and 64-70): `lat = 100` passes
validation and the handler proceeds to query upstream, here answering 200.
(Non-finite numbers cannot arise at all, since `request.json()` never
produces `NaN` or `Infinity`.)  This contradicts the claim, the spec, and
the repository's own OpenAPI schema and README coordinate ranges. -/
theorem C1_lat_out_of_range_not_rejected :
    (fetchMulti lat100Req AuthOutcome.ok allOkOracle).statusCode = 200 ∧
    (fetchMulti lat100Req AuthOutcome.ok allOkOracle).statusCode ≠ 400 := by
  constructor
  · rfl
  · intro h
    cases h

/-- C9: for every request whose method is not POST, both revisions return
status 405, regardless of path and body. -/
theorem C9_non_post_405 (req : WorkerRequest) (auth : AuthOutcome)
    (multi : Dataset → UpstreamOutcome) (single : UpstreamOutcome)
    (h : req.method ≠ "POST") :
    (fetchMulti req auth multi).statusCode = 405 ∧
    (fetchSingle req auth single).statusCode = 405 := by
  constructor
  · simp [fetchMulti, validateMulti, if_pos h, WorkerResponse.statusCode]
  · simp [fetchSingle, validateSingle, if_pos h, WorkerResponse.statusCode]

theorem C9_non_post_405_witness :
    (fetchMulti { method := "GET", path := "/sensor", body := none }
        AuthOutcome.ok allOkOracle).statusCode = 405 ∧
    (fetchSingle { method := "GET", path := "/sensor", body := none }
        AuthOutcome.ok (UpstreamOutcome.ok none)).statusCode = 405 :=
  C9_non_post_405 _ AuthOutcome.ok allOkOracle (UpstreamOutcome.ok none)
    (by decide)

/-- C10: when the raw scene identifier obtained by the probe chain is a
non-empty string containing no slash separator, `split('/').pop()` returns
the whole string, so the resulting sceneId equals the raw identifier. -/
theorem C10_separator_free_scene_id (d : Dataset) (result : Option Json)
    (s : String) (hd : d = sentinel1DS ∨ d = sentinel2DS)
    (hraw : extractRawId result = some (Json.str s))
    (hne : s ≠ "") (hsep : '/' ∉ s.data) :
    splitPop s = s ∧ extractSceneId d result = some s := by
  have hpop : splitPop s = s := splitPop_no_sep s hsep
  refine ⟨hpop, ?_⟩
  rcases hd with rfl | rfl
  · have h1 : strIncludes sentinel1DS.name "Sentinel" = true := by decide
    have h2 : strIncludes sentinel1DS.name "Sentinel-2" = false := by decide
    have h3 : strIncludes sentinel1DS.name "Sentinel-1" = true := by decide
    rw [extractSceneId, h1, hraw]
    simp [h2, h3, hne, hpop]
  · have h1 : strIncludes sentinel2DS.name "Sentinel" = true := by decide
    have h2 : strIncludes sentinel2DS.name "Sentinel-2" = true := by decide
    rw [extractSceneId, h1, hraw]
    simp [h2, hne, hpop]

theorem C10_separator_free_scene_id_witness :
    splitPop "SCENE20230101" = "SCENE20230101" ∧
    extractSceneId sentinel2DS
        (some (Json.obj [("id", Json.str "SCENE20230101")])) =
      some "SCENE20230101" :=
  C10_separator_free_scene_id sentinel2DS
    (some (Json.obj [("id", Json.str "SCENE20230101")]))
    "SCENE20230101" (Or.inr rfl) rfl (by decide) (by decide)

/-- C5 counterexample: the claim says extraction takes the first non-empty
*string* among the four probe locations.  The source takes the first
*truthy* value and only then checks that it is a string: on a payload whose
`id` is the number 42 while `properties['system:index']` holds the string
`prefix/SCENE`, the claimed behaviour yields `SCENE`, the source yields no
sceneId at all. -/
theorem C5_first_string_probe_counterexample :
    specSceneId sentinel2DS mixedProbePayload = some "SCENE" ∧
    extractSceneId sentinel2DS mixedProbePayload = none := by
  constructor
  · rfl
  · rfl

/-- C5 (amended): scene-id extraction takes the first *truthy* probe value
in the priority order id, system:index, GRANULE_ID, PRODUCT_ID; a sceneId
(the substring after the final slash) results only when that value is a
string, and otherwise — all probes falsy, or the first truthy value not a
string — no sceneId is produced and no error is raised. -/
theorem C5_first_truthy_probe (d : Dataset) (result : Option Json)
    (hd : d = sentinel1DS ∨ d = sentinel2DS) :
    extractSceneId d result =
      match firstTruthy (probeList result) with
      | some (Json.str s) => some (splitPop s)
      | _ => none := by
  have hkey := extractRawId_eq result
  have hsent : strIncludes d.name "Sentinel" = true := by
    rcases hd with rfl | rfl <;> decide
  have hbranch : ∀ t : String,
      (if strIncludes d.name "Sentinel-2" then some (splitPop t)
       else if strIncludes d.name "Sentinel-1" then some (splitPop t)
       else none) = some (splitPop t) := by
    intro t
    rcases hd with rfl | rfl
    · rw [if_neg (by decide), if_pos (by decide)]
    · rw [if_pos (by decide)]
  cases hft : firstTruthy (probeList result) with
  | some v =>
    have hv : v.truthy = true := firstTruthy_some _ _ hft
    rw [hft, jsOr_truthy _ _ (by simp [jsTruthy, hv])] at hkey
    cases v with
    | str s =>
      have hs : s ≠ "" := by simpa [Json.truthy] using hv
      rw [extractSceneId, hsent, hkey]
      simp [hs, hbranch s]
    | null =>
      rw [extractSceneId, hsent, hkey]
      rfl
    | bool b =>
      rw [extractSceneId, hsent, hkey]
      rfl
    | num q =>
      rw [extractSceneId, hsent, hkey]
      rfl
    | arr elems =>
      rw [extractSceneId, hsent, hkey]
      rfl
    | obj fields =>
      rw [extractSceneId, hsent, hkey]
      rfl
  | none =>
    have h4 : jsTruthy (probeProp result "PRODUCT_ID") = false :=
      firstTruthy_none _ hft _ (by simp [probeList])
    rw [hft, jsOr_falsy _ _ (by simp [jsTruthy])] at hkey
    rw [extractSceneId, hsent, hkey]
    cases hp : probeProp result "PRODUCT_ID" with
    | none => rfl
    | some v =>
      rw [hp] at h4
      cases v with
      | str s =>
        have hs : s = "" := by simpa [jsTruthy, Json.truthy] using h4
        simp [hs]
      | null => rfl
      | bool b => rfl
      | num q => rfl
      | arr elems => rfl
      | obj fields => rfl

theorem C5_first_truthy_probe_witness :
    extractSceneId sentinel2DS
        (some (Json.obj [("id", Json.str "a/b")])) =
      match firstTruthy (probeList (some (Json.obj [("id", Json.str "a/b")]))) with
      | some (Json.str s) => some (splitPop s)
      | _ => none :=
  C5_first_truthy_probe sentinel2DS
    (some (Json.obj [("id", Json.str "a/b")])) (Or.inr rfl)

/-- C2: once a run of the multi-dataset handler reaches the per-dataset
query loop (validation passed, authentication succeeded), a failure for one
dataset neither aborts the loop nor changes any other dataset's entry: every
one of the 7 registry datasets keeps its own result entry, entries of the
unaffected datasets are identical under any two oracles agreeing away from
the failing dataset, and the overall response status is 200. -/
theorem C2_dataset_failure_isolation (req : WorkerRequest)
    (o1 o2 : Dataset → UpstreamOutcome) (d : Dataset)
    (la lo : ℚ) (cs : Option ℚ)
    (hv : validateMulti req = Except.ok (la, lo, cs))
    (hagree : ∀ d' ∈ datasets, d' ≠ d → o1 d' = o2 d') :
    (fetchMulti req AuthOutcome.ok o1).statusCode = 200 ∧
    (fetchMulti req AuthOutcome.ok o2).statusCode = 200 ∧
    (∀ d' ∈ datasets, ∃ r,
        lookupKey (fetchMulti req AuthOutcome.ok o1).datasetsMap d'.name =
          some r) ∧
    (∀ d' ∈ datasets, ∃ r,
        lookupKey (fetchMulti req AuthOutcome.ok o2).datasetsMap d'.name =
          some r) ∧
    (∀ d' ∈ datasets, d' ≠ d →
        lookupKey (fetchMulti req AuthOutcome.ok o1).datasetsMap d'.name =
        lookupKey (fetchMulti req AuthOutcome.ok o2).datasetsMap d'.name) := by
  rw [fetchMulti_ok_form req AuthOutcome.ok o1 la lo cs hv rfl,
      fetchMulti_ok_form req AuthOutcome.ok o2 la lo cs hv rfl]
  simp only [WorkerResponse.datasetsMap, WorkerResponse.statusCode]
  refine ⟨trivial, trivial, ?_, ?_, ?_⟩
  · intro d' hd'
    exact ⟨_, runDatasets_lookup cs o1 d' hd'⟩
  · intro d' hd'
    exact ⟨_, runDatasets_lookup cs o2 d' hd'⟩
  · intro d' hd' hne
    rw [runDatasets_lookup cs o1 d' hd', runDatasets_lookup cs o2 d' hd',
        hagree d' hd' hne]

theorem C2_dataset_failure_isolation_witness :
    (fetchMulti validSensorReq AuthOutcome.ok allOkOracle).statusCode = 200 ∧
    (fetchMulti validSensorReq AuthOutcome.ok modisFailsOracle).statusCode
      = 200 ∧
    (∀ d' ∈ datasets, ∃ r,
        lookupKey (fetchMulti validSensorReq AuthOutcome.ok
          allOkOracle).datasetsMap d'.name = some r) ∧
    (∀ d' ∈ datasets, ∃ r,
        lookupKey (fetchMulti validSensorReq AuthOutcome.ok
          modisFailsOracle).datasetsMap d'.name = some r) ∧
    (∀ d' ∈ datasets, d' ≠ modisDS →
        lookupKey (fetchMulti validSensorReq AuthOutcome.ok
          allOkOracle).datasetsMap d'.name =
        lookupKey (fetchMulti validSensorReq AuthOutcome.ok
          modisFailsOracle).datasetsMap d'.name) :=
  C2_dataset_failure_isolation validSensorReq allOkOracle modisFailsOracle
    modisDS 1 2 none rfl
    (by
      intro d' hd' hne
      simp only [datasets, List.mem_cons, List.not_mem_nil, or_false] at hd'
      rcases hd' with rfl | rfl | rfl | rfl | rfl | rfl | rfl
      · exact absurd rfl hne
      all_goals rfl)

/-- C3: every status-200 response of the multi-dataset handler carries a
datasets map whose keys are exactly the 7 registry names (in particular 7
distinct keys), and every entry's status field is success or error. -/
theorem C3_seven_datasets_each_with_status (req : WorkerRequest)
    (auth : AuthOutcome) (o : Dataset → UpstreamOutcome)
    (h : (fetchMulti req auth o).statusCode = 200) :
    (fetchMulti req auth o).datasetsMap.map Prod.fst =
      datasets.map Dataset.name ∧
    (fetchMulti req auth o).datasetsMap.length = 7 ∧
    ((fetchMulti req auth o).datasetsMap.map Prod.fst).Nodup ∧
    ∀ p ∈ (fetchMulti req auth o).datasetsMap,
      p.2.status = "success" ∨ p.2.status = "error" := by
  obtain ⟨la, lo, cs, hv, ha⟩ := fetchMulti_status200_inv req auth o h
  rw [fetchMulti_ok_form req auth o la lo cs hv ha]
  simp only [WorkerResponse.datasetsMap]
  refine ⟨?_, ?_, ?_, ?_⟩
  · simp [runDatasets]
  · simp [runDatasets, datasets]
  · simpa [runDatasets, List.map_map, Function.comp] using
      datasets_names_nodup
  · intro p hp
    simp only [runDatasets, List.mem_map] at hp
    obtain ⟨d, _, rfl⟩ := hp
    exact processDataset_status cs d (o d)

theorem C3_seven_datasets_each_with_status_witness :
    (fetchMulti validSensorReq AuthOutcome.ok allOkOracle).datasetsMap.map
        Prod.fst = datasets.map Dataset.name ∧
    (fetchMulti validSensorReq AuthOutcome.ok allOkOracle).datasetsMap.length
      = 7 ∧
    ((fetchMulti validSensorReq AuthOutcome.ok allOkOracle).datasetsMap.map
        Prod.fst).Nodup ∧
    ∀ p ∈ (fetchMulti validSensorReq AuthOutcome.ok allOkOracle).datasetsMap,
      p.2.status = "success" ∨ p.2.status = "error" :=
  C3_seven_datasets_each_with_status validSensorReq AuthOutcome.ok
    allOkOracle rfl

/-- C4: a dataset result produced by the loop never carries a payload when
its status is error, never carries an error when its status is success, and
carries a sceneId only when the dataset name contains Sentinel and scene-id
extraction from the successful payload produced that (non-empty) value. -/
theorem C4_result_field_invariants (cs : Option ℚ) (d : Dataset)
    (out : UpstreamOutcome) :
    ((processDataset cs d out).status = "error" →
        (processDataset cs d out).data = none) ∧
    ((processDataset cs d out).status = "success" →
        (processDataset cs d out).error = none) ∧
    (∀ s, (processDataset cs d out).sceneId = some s →
        strIncludes d.name "Sentinel" = true ∧ s ≠ "" ∧
        ∃ result, out = UpstreamOutcome.ok result ∧
          extractSceneId d result = some s) := by
  rcases out with result | text | msg
  · refine ⟨?_, ?_, ?_⟩
    · intro h
      exact absurd h (by simp [processDataset])
    · intro _
      rfl
    · intro s hs
      simp only [processDataset] at hs
      cases he : extractSceneId d result with
      | none => rw [he] at hs; cases hs
      | some t =>
        rw [he] at hs
        have hs2 : (if t ≠ "" then some t else none) = some s := hs
        by_cases ht : t ≠ ""
        · rw [if_pos ht] at hs2
          injection hs2 with hst
          subst hst
          exact ⟨extractSceneId_sentinel d result t he, ht, result, rfl, he⟩
        · rw [if_neg ht] at hs2
          cases hs2
  · refine ⟨fun _ => rfl, ?_, ?_⟩
    · intro h
      exact absurd h (by simp [processDataset])
    · intro s hs
      cases hs
  · refine ⟨fun _ => rfl, ?_, ?_⟩
    · intro h
      exact absurd h (by simp [processDataset])
    · intro s hs
      cases hs

theorem C4_result_field_invariants_witness :
    (processDataset none sentinel2DS
        (UpstreamOutcome.httpError "boom")).data = none ∧
    (processDataset none sentinel2DS
        (UpstreamOutcome.ok (some (Json.obj [])))).error = none :=
  ⟨(C4_result_field_invariants none sentinel2DS
      (UpstreamOutcome.httpError "boom")).1 rfl,
   (C4_result_field_invariants none sentinel2DS
      (UpstreamOutcome.ok (some (Json.obj [])))).2.1 rfl⟩

theorem fetchMulti_error_status (req : WorkerRequest) (auth : AuthOutcome)
    (o : Dataset → UpstreamOutcome) (s : Nat) (m : String)
    (hv : validateMulti req = Except.error (s, m)) :
    (fetchMulti req auth o).statusCode = s := by
  simp [fetchMulti, hv, WorkerResponse.statusCode]

/-- C6: a present scale that is non-numeric or nonpositive (NaN cannot come
out of JSON parsing) yields 400; with scale omitted each dataset result uses
that dataset's own defaultScale; and a supplied positive scale is used as
every dataset result's effective scale. -/
theorem C6_scale_validation_and_override (req : WorkerRequest)
    (auth : AuthOutcome) (o : Dataset → UpstreamOutcome)
    (body : Json) (la lo : ℚ)
    (hm : req.method = "POST") (hp : req.path = "/sensor" ∨ req.path = "/")
    (hb : req.body = some body)
    (hlat : body.getField "lat" = some (Json.num la))
    (hlon : body.getField "lon" = some (Json.num lo)) :
    (∀ v, body.getField "scale" = some v →
        (∀ q : ℚ, v = Json.num q → q ≤ 0) →
        (fetchMulti req auth o).statusCode = 400) ∧
    (body.getField "scale" = none → auth = AuthOutcome.ok →
        ∀ d ∈ datasets, ∃ r,
          lookupKey (fetchMulti req auth o).datasetsMap d.name = some r ∧
          r.scale = d.defaultScale) ∧
    (∀ q : ℚ, body.getField "scale" = some (Json.num q) → 0 < q →
        auth = AuthOutcome.ok →
        ∀ d ∈ datasets, ∃ r,
          lookupKey (fetchMulti req auth o).datasetsMap d.name = some r ∧
          r.scale = q) := by
  have hred := validateMulti_reduce req body la lo hm hp hb hlat hlon
  refine ⟨?_, ?_, ?_⟩
  · intro v hv hbad
    rw [hv] at hred
    cases v with
    | num q =>
      have hq : q ≤ 0 := hbad q rfl
      have hred2 : validateMulti req =
          if q ≤ 0 then
            Except.error (400, "Scale must be a positive number")
          else Except.ok (la, lo, some q) := hred
      rw [if_pos hq] at hred2
      exact fetchMulti_error_status req auth o _ _ hred2
    | null => exact fetchMulti_error_status req auth o _ _ hred
    | bool b => exact fetchMulti_error_status req auth o _ _ hred
    | str s => exact fetchMulti_error_status req auth o _ _ hred
    | arr es => exact fetchMulti_error_status req auth o _ _ hred
    | obj fs => exact fetchMulti_error_status req auth o _ _ hred
  · intro hnone ha
    rw [hnone] at hred
    rw [fetchMulti_ok_form req auth o la lo none hred ha]
    intro d hd
    refine ⟨processDataset none d (o d), ?_, ?_⟩
    · simpa [WorkerResponse.datasetsMap] using runDatasets_lookup none o d hd
    · rw [processDataset_scale]
      rfl
  · intro q hq hpos ha
    rw [hq] at hred
    have hred2 : validateMulti req =
        if q ≤ 0 then Except.error (400, "Scale must be a positive number")
        else Except.ok (la, lo, some q) := hred
    rw [if_neg (not_le.mpr hpos)] at hred2
    rw [fetchMulti_ok_form req auth o la lo (some q) hred2 ha]
    intro d hd
    refine ⟨processDataset (some q) d (o d), ?_, ?_⟩
    · simpa [WorkerResponse.datasetsMap] using
        runDatasets_lookup (some q) o d hd
    · rw [processDataset_scale]
      show (if q ≠ 0 then q else d.defaultScale) = q
      rw [if_pos (ne_of_gt hpos)]

theorem C6_scale_validation_and_override_witness :
    (fetchMulti badScaleReq AuthOutcome.ok allOkOracle).statusCode = 400 :=
  (C6_scale_validation_and_override badScaleReq AuthOutcome.ok allOkOracle
      (Json.obj [("lat", Json.num 1), ("lon", Json.num 2),
                 ("scale", Json.str "x")]) 1 2
      rfl (Or.inl rfl) rfl rfl rfl).1
    (Json.str "x") rfl (fun _ hq => Json.noConfusion hq)

/-- C7: in the fallback-bearing revision (modelled from the spec, since only
the fallback-free revisions are under src), a raw secret that does not parse
as JSON is treated as the private key itself, combined with the
supplementary client-email and project-id fields, both required; and if the
fallback path also cannot produce all three fields the extractor fails with
a configuration error. -/
theorem C7_raw_key_fallback (env : CredEnv) (hp : env.parsedJson = none) :
    (∀ ce pid, env.saClientEmail = some ce → env.eeProject = some pid →
        extractCredentialsWithFallback env = CredResult.ok ce env.raw pid) ∧
    ((env.saClientEmail = none ∨ env.eeProject = none) →
        ∃ m, extractCredentialsWithFallback env = CredResult.configError m) := by
  constructor
  · intro ce pid h1 h2
    unfold extractCredentialsWithFallback
    rw [hp, h1, h2]
  · intro h
    unfold extractCredentialsWithFallback
    rw [hp]
    rcases h with h | h
    · rw [h]
      cases env.eeProject with
      | none => exact ⟨_, rfl⟩
      | some pid => exact ⟨_, rfl⟩
    · rw [h]
      cases env.saClientEmail with
      | none => exact ⟨_, rfl⟩
      | some ce => exact ⟨_, rfl⟩

theorem C7_raw_key_fallback_witness :
    extractCredentialsWithFallback
        { raw := "RAWKEY", parsedJson := none,
          saClientEmail := some "sa@example.com",
          eeProject := some "my-project" } =
      CredResult.ok "sa@example.com" "RAWKEY" "my-project" :=
  (C7_raw_key_fallback _ rfl).1 _ _ rfl rfl

theorem validateImageCoords_error_400 (body : Json) (s : Nat) (m : String)
    (h : validateImageCoords body = Except.error (s, m)) : s = 400 := by
  unfold validateImageCoords at h
  repeat' split at h
  all_goals
    first
      | (injection h with h1; injection h1 with ha hb; omega)
      | cases h

/-- C8: against the /image handler modelled from the spec (no such route
exists in the revisions under src), a valid POST to /image returns a 200
response carrying coordinates, dataset, imageUrl, visualization and
dimensions; an unregistered dataset name yields 400, as does an
out-of-range latitude. -/
theorem C8_image_endpoint :
    (fetchImage goodImageReq =
      ImageResponse.ok (-2.8, -60.3) "Sentinel-2 Surface Reflectance"
        (imageUrlFor sentinel2DS) (visualizationFor sentinel2DS) (512, 512)) ∧
    (∀ req body name, req.method = "POST" → req.path = "/image" →
        req.body = some body →
        body.getField "dataset" = some (Json.str name) →
        lookupDatasetByName name = none →
        (fetchImage req).status = 400) ∧
    (∀ req body la, req.method = "POST" → req.path = "/image" →
        req.body = some body →
        body.getField "lat" = some (Json.num la) → 90 < la →
        (fetchImage req).status = 400) := by
  refine ⟨?_, ?_, ?_⟩
  · have hco : validateImageCoords goodImageBody =
        Except.ok (-2.8, -60.3) := by
      show (if (-2.8 : ℚ) < -90 ∨ (90 : ℚ) < -2.8 ∨
            (-60.3 : ℚ) < -180 ∨ (180 : ℚ) < -60.3 then
          Except.error (400, "Coordinates out of range")
        else Except.ok ((-2.8 : ℚ), (-60.3 : ℚ))) =
        Except.ok ((-2.8 : ℚ), (-60.3 : ℚ))
      rw [if_neg (by norm_num)]
    have hid : imageDatasetOf goodImageBody = Except.ok sentinel2DS := rfl
    show imageRespond goodImageBody = _
    unfold imageRespond
    rw [hco]
    show (match imageDatasetOf goodImageBody with
      | Except.error (s, m) => ImageResponse.err s m
      | Except.ok d =>
        match imageDims goodImageBody d with
        | Except.error (s, m) => ImageResponse.err s m
        | Except.ok (w, h) =>
          ImageResponse.ok (-2.8, -60.3) d.name (imageUrlFor d)
            (visualizationFor d) (w, h)) = _
    rw [hid]
    rfl
  · intro req body name hm hp hb hfield hlookup
    have hbody : fetchImage req = imageRespond body := by
      unfold fetchImage
      rw [hb, if_neg (by simp [hm]), if_neg (by simp [hp])]
    rw [hbody]
    have hds : imageDatasetOf body =
        Except.error (400, "Unknown dataset name") := by
      unfold imageDatasetOf
      rw [hfield]
      show (match lookupDatasetByName name with
        | some d => Except.ok d
        | none => Except.error (400, "Unknown dataset name")) =
        Except.error (400, "Unknown dataset name")
      rw [hlookup]
    cases hc : validateImageCoords body with
    | error e =>
      rcases e with ⟨s, m⟩
      have hs : s = 400 := validateImageCoords_error_400 body s m hc
      subst hs
      unfold imageRespond
      rw [hc]
      rfl
    | ok v =>
      rcases v with ⟨la, lo⟩
      unfold imageRespond
      rw [hc, hds]
      rfl
  · intro req body la hm hp hb hlat hgt
    have hbody : fetchImage req = imageRespond body := by
      unfold fetchImage
      rw [hb, if_neg (by simp [hm]), if_neg (by simp [hp])]
    rw [hbody]
    have hc : ∃ m, validateImageCoords body = Except.error (400, m) := by
      unfold validateImageCoords
      rw [hlat]
      cases hlo : body.getField "lon" with
      | none => exact ⟨_, rfl⟩
      | some vlo =>
        cases vlo with
        | num lo =>
          refine ⟨"Coordinates out of range", ?_⟩
          show (if la < -90 ∨ 90 < la ∨ lo < -180 ∨ 180 < lo then
              Except.error (400, "Coordinates out of range")
            else Except.ok (la, lo)) =
            Except.error (400, "Coordinates out of range")
          rw [if_pos (Or.inr (Or.inl hgt))]
        | null => exact ⟨_, rfl⟩
        | bool b => exact ⟨_, rfl⟩
        | str s => exact ⟨_, rfl⟩
        | arr es => exact ⟨_, rfl⟩
        | obj fs => exact ⟨_, rfl⟩
    obtain ⟨m, hc⟩ := hc
    unfold imageRespond
    rw [hc]
    rfl

theorem C8_image_endpoint_witness :
    (fetchImage badDatasetImageReq).status = 400 :=
  C8_image_endpoint.2.1 badDatasetImageReq _ "NoSuchDataset" rfl rfl rfl
    rfl rfl
